import Mathlib

/-!
Verification development for the Smart Library RAG backend.

This file gives a shallow embedding of the retrieval-augmented response
pipeline (backend/app/main.py, rag.py, tools.py, moderation.py,
app_types.py) and proves properties of the embedded definitions.

Modelling conventions:
- Remote capabilities (OpenAI embeddings, non-streaming completion,
  streaming completion) and the Chroma nearest-neighbour search are
  opaque parameters gathered in a `Caps` structure; every invocation of
  a remote capability (plus the local summary lookup, whose invocation
  one claim is about) is recorded in a `CapCall` log so that theorems
  can speak about which work a request performed.
- Python exceptions are modelled with `Except String`.
- Python `str` operations are modelled on `List Char` with ASCII
  approximations of Unicode case folding / alphanumericity (`pyLowerChar`,
  `pyIsAlnum`); `None`-able strings are `Option String`.
- Embedding vectors are `List ℚ` (their numeric values never matter to
  the properties proved here, only which calls produce them).
-/

/-! ## String helpers (models of the Python `str` operations used) -/

/-- ASCII model of `str.lower` (and of `str.casefold`) on one character. -/
def pyLowerChar (c : Char) : Char :=
  if 65 ≤ c.toNat ∧ c.toNat ≤ 90 then Char.ofNat (c.toNat + 32) else c

/-- ASCII model of `str.isalnum` on one character. -/
def pyIsAlnum (c : Char) : Bool :=
  (48 ≤ c.toNat && c.toNat ≤ 57) || (65 ≤ c.toNat && c.toNat ≤ 90) ||
    (97 ≤ c.toNat && c.toNat ≤ 122)

/-- Strip characters satisfying `p` from both ends of a character list. -/
def stripWhile (p : Char → Bool) (l : List Char) : List Char :=
  ((l.dropWhile p).reverse.dropWhile p).reverse

/-- Model of Python `str.strip()` (default whitespace stripping). -/
def strip (s : String) : String :=
  String.mk (stripWhile Char.isWhitespace s.data)

/-- Model of Python `str.lower()` / `str.casefold()` on a whole string. -/
def lowerStr (s : String) : String :=
  String.mk (s.data.map pyLowerChar)

/-- `startsWithL hay needle` : the list `hay` starts with `needle`. -/
def startsWithL : List Char → List Char → Bool
  | _, [] => true
  | [], _ :: _ => false
  | c :: cs, d :: ds => c = d && startsWithL cs ds

/-- `containsL hay needle` : `needle` occurs as a contiguous sublist of
`hay` (model of Python `needle in hay` on strings). -/
def containsL : List Char → List Char → Bool
  | [], needle => needle.isEmpty
  | c :: cs, needle => startsWithL (c :: cs) needle || containsL cs needle

/-- Model of Python `s[:n]` on strings. -/
def takeStr (n : Nat) (s : String) : String :=
  String.mk (s.data.take n)

/-! ## Moderation Gate (backend/app/moderation.py)

Each source pattern has the shape `\bterm\w*\b` (word-boundary, the fixed
term, trailing word characters), compiled case-insensitively into one
alternation; `is_offensive` returns the text matched by the leftmost
match, trying the patterns in listed order at each position. -/

/-- The fixed terms of `OFFENSIVE_PATTERNS`, in source order. -/
def OFFENSIVE_TERMS : List String :=
  ["idiot", "prost", "nesimțit", "jeg", "jigod", "jigăod", "bozgor",
   "doamne-fer", "dracu", "naib", "pul", "cur", "muist", "țigan",
   "handicapat", "bou", "boulean", "porc", "vacă", "gunoa", "măgar",
   "zdrențăros", "javr", "moron", "jerk", "jackass", "asshole", "shit",
   "fuck", "cunt", "retard", "bitch", "whore", "slut", "bastard"]

/-- Model of the regex word character class `\w` (ASCII approximation). -/
def isWordChar (c : Char) : Bool := pyIsAlnum c || c = '_'

/-- Case-insensitive prefix removal: if lowering `s` starts with the
(lower-case) `term`, return the remaining characters of `s`. -/
def stripCaseless : List Char → List Char → Option (List Char)
  | [], s => some s
  | _ :: _, [] => none
  | t :: ts, c :: cs => if pyLowerChar c = t then stripCaseless ts cs else none

/-- Try to match `\bterm\w*\b` at the current position (`prev` is the
character just before it); returns the matched text. -/
def termMatchAt (term : List Char) (prev : Option Char) (s : List Char) :
    Option (List Char) :=
  if (match prev with | some p => isWordChar p | none => false) then none
  else
    match stripCaseless term s with
    | none => none
    | some rest => some (s.take term.length ++ rest.takeWhile isWordChar)

/-- First pattern (in listed order) matching at the current position. -/
def firstTermMatch (prev : Option Char) (s : List Char) : Option (List Char) :=
  (OFFENSIVE_TERMS.map String.data).findSome? (fun t => termMatchAt t prev s)

/-- Leftmost-position regex search over the alternation. -/
def searchFrom (prev : Option Char) : List Char → Option (List Char)
  | [] => none
  | c :: rest =>
    match firstTermMatch prev (c :: rest) with
    | some m => some m
    | none => searchFrom (some c) rest

/-- `is_offensive` (moderation.py): the matched term, or `none`. -/
def is_offensive (text : String) : Option String :=
  if text = ("") then none
  else (searchFrom none text.data).map String.mk

/-! ## Data model -/

/-- One record of `book_summaries.json` (missing JSON keys are modelled by
their Python `.get` defaults: empty string / empty list). -/
structure Book where
  title : String
  authors : List String
  tags : List String
  summary : String
deriving DecidableEq, Repr

/-- The metadata dict stored per document by `index_books` (authors and
tags are already comma-joined strings there). -/
structure Meta where
  title : String
  authors : String
  tags : String
  summary : String
deriving DecidableEq, Repr

/-- One entry of the persistent Chroma collection. -/
structure StoredDoc where
  id : String
  document : String
  embedding : List ℚ
  meta : Meta
deriving DecidableEq, Repr

/-- The persistent Chroma collection (`get_collection()` state). -/
structure Collection where
  docs : List StoredDoc
deriving DecidableEq, Repr

/-- The parallel result lists of `collection.query` (first query slot). -/
structure QueryRes where
  ids : List String
  distances : List ℚ
  documents : List String
  metadatas : List (Option Meta)
deriving DecidableEq, Repr

/-- One element of the list returned by `retrieve` (rag.py).
`authors`/`tags` are `none` when the metadata dict was missing, in which
case the Python code substitutes the default `[]`. -/
structure RetrievalMatch where
  title : Option String
  summary : Option String
  authors : Option String
  tags : Option String
  distance : Option ℚ
  document : Option String
  id : String
deriving DecidableEq, Repr

/-- The `recommendation` dict `\x7b"title": ...\x7d` of a `FinalResponse`. -/
structure TitleRec where
  title : String
deriving DecidableEq, Repr

/-- One SSE frame of the outbound stream (`token` / `final` / `error`
events of main.py; a `final` frame carries the `FinalResponse` payload,
whose `final` flag is always `true` and is omitted here). -/
inductive Frame where
  | token (text : String)
  | final (recommendation : Option TitleRec) (summary : Option String)
  | error (message : String)
deriving DecidableEq, Repr

/-- One unit of (remote or lookup) work performed by the pipeline. -/
inductive CapCall where
  | embed (texts : List String)
  | completion
  | streaming
  | summaryLookup (title : String)
deriving DecidableEq, Repr

/-- The opaque external capabilities: OpenAI embeddings
(`client.embeddings.create`), the non-streaming Responses call
(`client.responses.create`, yielding `output_text`), the streaming
Responses call (yielding the text deltas followed by an optional
failure), and Chroma's nearest-neighbour `collection.query`. -/
structure Caps where
  embed : List String → Except String (List (List ℚ))
  completion : String → String → Except String String
  streaming : String → String → List String × Option String
  colQuery : Collection → List ℚ → Nat → QueryRes

/-- Outcome of the `/respond` route: a 400 `HTTPException`, an exception
raised before the `StreamingResponse` was constructed (surfaced by the
framework as a non-stream server error), or an SSE stream of frames. -/
inductive RespondResult where
  | httpError (status : Nat) (detail : String)
  | raised (message : String)
  | stream (frames : List Frame)
deriving DecidableEq, Repr

/-! ## Embedding Index and Retriever (backend/app/rag.py) -/

/-- One left-to-right non-overlapping `str.replace("--", "-")` pass. -/
def replaceDashes : List Char → List Char
  | [] => []
  | [c] => [c]
  | a :: b :: rest =>
    if a = '-' ∧ b = '-' then '-' :: replaceDashes rest
    else a :: replaceDashes (b :: rest)

/-- `_slugify` (rag.py). -/
def _slugify (title : String) : String :=
  String.mk (replaceDashes (stripWhile (fun c => c = '-')
    ((title.data.map pyLowerChar).map (fun c => if pyIsAlnum c then c else '-'))))

/-- `_compose_document` (rag.py). -/
def _compose_document (b : Book) : String :=
  let title := strip b.title
  let authors := String.intercalate (", ") b.authors
  let tags := String.intercalate (", ") b.tags
  let summary := strip b.summary
  let parts := [("Title: ") ++ title,
    if authors ≠ ("") then ("Authors: ") ++ authors else (""),
    if tags ≠ ("") then ("Tags: ") ++ tags else (""),
    ("Summary: ") ++ summary]
  String.intercalate ("\n") (parts.filter (fun p => p ≠ ("")))

/-- `embed_texts` (rag.py): returns `[]` without an API call on empty
input, otherwise performs one embeddings API call. -/
def embed_texts (caps : Caps) (texts : List String) :
    Except String (List (List ℚ)) × List CapCall :=
  if texts.isEmpty then (Except.ok [], [])
  else (caps.embed texts, [CapCall.embed texts])

/-- One row assembled by the ingestion loop of `index_books`. -/
structure Row where
  id : String
  document : String
  meta : Meta
deriving DecidableEq, Repr

/-- The row built by the ingestion loop of `index_books` for one book:
the id is the slug of the stripped title, the document the composed
embedding text, the metadata the stripped title with comma-joined
authors and tags and the raw summary. -/
def rowOf (b : Book) : Row :=
  { id := _slugify (strip b.title)
    document := _compose_document b
    meta :=
      { title := strip b.title
        authors := String.intercalate (", ") b.authors
        tags := String.intercalate (", ") b.tags
        summary := b.summary } }

/-- The `ids`/`docs`/`metas` rows built by `index_books`: one row per
book whose stripped title is non-empty (empty-title entries are skipped). -/
def indexRows (books : List Book) : List Row :=
  books.filterMap (fun b =>
    if strip b.title = ("") then none else some (rowOf b))

/-- `collection.add` for one batch: Chroma validates that the parallel
lists have equal lengths (raising otherwise) and appends the documents. -/
def colAdd (col : Collection) (batch : List Row) (vectors : List (List ℚ)) :
    Except String Collection :=
  if batch.length = vectors.length then
    Except.ok ⟨col.docs ++ (batch.zip vectors).map (fun rv =>
      { id := rv.1.id, document := rv.1.document, embedding := rv.2,
        meta := rv.1.meta })⟩
  else Except.error ("chroma: unequal lengths in add")

/-- The batched ingestion loop of `index_books` (`BATCH = 64`): embeds
each batch and adds it; on failure the batches already added remain. -/
def batchLoop (caps : Caps) : List Row → Collection → Nat →
    Except String Nat × Collection × List CapCall
  | [], col, added => (Except.ok added, col, [])
  | r :: rs, col, added =>
    let batch := r :: rs.take 63
    let rest := rs.drop 63
    let step := embed_texts caps (batch.map (fun x => x.document))
    match step.1 with
    | Except.error e => (Except.error e, col, step.2)
    | Except.ok vectors =>
      match colAdd col batch vectors with
      | Except.error e => (Except.error e, col, step.2)
      | Except.ok col1 =>
        let recur := batchLoop caps rest col1 (added + batch.length)
        (recur.1, recur.2.1, step.2 ++ recur.2.2)
termination_by rows _ _ => rows.length
decreasing_by
  simp only [List.length_drop, List.length_cons]
  omega

/-- `index_books` (rag.py): returns `(added, skipped)`, the updated
collection, and the capability-call log. -/
def index_books (caps : Caps) (books : List Book) (col : Collection)
    (force : Bool) : Except String (Nat × Nat) × Collection × List CapCall :=
  let existing := col.docs.length
  if existing ≠ 0 ∧ force = false then (Except.ok (0, existing), col, [])
  else
    let col0 : Collection := if force = true ∧ existing ≠ 0 then ⟨[]⟩ else col
    let rows := indexRows books
    let run := batchLoop caps rows col0 0
    match run.1 with
    | Except.error e => (Except.error e, run.2.1, run.2.2)
    | Except.ok added => (Except.ok (added, rows.length - added), run.2.1, run.2.2)

/-- The result-assembly loop of `retrieve` (rag.py), with the source's
defensive bounds checks on the parallel result lists. -/
def buildOut (res : QueryRes) : List RetrievalMatch :=
  (List.range res.ids.length).map (fun i =>
    let meta := (res.metadatas.getD i none)
    { title := meta.map (fun m => m.title)
      summary := meta.map (fun m => m.summary)
      authors := meta.map (fun m => m.authors)
      tags := meta.map (fun m => m.tags)
      distance := res.distances.get? i
      document := res.documents.get? i
      id := res.ids.getD i ("") })

/-- `retrieve` (rag.py): trims the query (Python `query or ""` turns
`None` into `""`), answers `[]` for an empty query without any embedding
call, otherwise embeds the query once and queries the collection with
`n_results = max(1, k)`. -/
def retrieve (caps : Caps) (col : Collection) (query : Option String)
    (k : Nat) : Except String (List RetrievalMatch) × List CapCall :=
  let q := strip (query.getD (""))
  if q = ("") then (Except.ok [], [])
  else
    let step := embed_texts caps [q]
    match step.1 with
    | Except.error e => (Except.error e, step.2)
    | Except.ok vectors =>
      match vectors.head? with
      | none => (Except.error ("list index out of range"), step.2)
      | some qEmb =>
        (Except.ok (buildOut (caps.colQuery col qEmb (max 1 k))), step.2)

/-! ## Summary Lookup (backend/app/tools.py)

`difflib.get_close_matches(title, all_titles, n=1, cutoff=0.6)` is an
opaque standard-library capability, modelled as a parameter
`close : ℚ → String → List String → Option String`
(cutoff, word, possibilities ↦ best match clearing the cutoff, if any). -/

/-- `_norm` (tools.py): strip then casefold. -/
def _norm (s : String) : String := lowerStr (strip s)

/-- Python `dict` assignment on an association list: replacing an existing
key keeps its insertion position, a new key is appended. -/
def insertKV : List (String × Book) → String → Book → List (String × Book)
  | [], k, v => [(k, v)]
  | (k0, v0) :: rest, k, v =>
    if k0 = k then (k, v) :: rest else (k0, v0) :: insertKV rest k v

/-- Python `dict` lookup on the association list. -/
def lookupKV : List (String × Book) → String → Option Book
  | [], _ => none
  | (k0, v0) :: rest, k => if k0 = k then some v0 else lookupKV rest k

/-- `_ensure_cache` (tools.py): `_TITLE_INDEX`, mapping each normalized
non-empty title to its book, in catalog insertion order. -/
def buildIndex (books : List Book) : List (String × Book) :=
  books.foldl (fun idx b =>
    let title := strip b.title
    if title = ("") then idx else insertKV idx (lowerStr title) b) []

/-- Answer of the exact-normalized-match branch of `get_summary_by_title`. -/
def exactAnswer (b : Book) : String :=
  let summary := strip b.summary
  if summary ≠ ("") then summary
  else ("Cartea „") ++ b.title ++ ("” nu are un rezumat disponibil.")

/-- Answer of the substring/startswith branch of `get_summary_by_title`. -/
def candAnswer (b : Book) : String :=
  let summary := strip b.summary
  if summary ≠ ("") then summary
  else ("Cartea „") ++ b.title ++ ("” nu are rezumat disponibil.")

/-- The substring/startswith candidate scan over `_TITLE_INDEX.items()`:
keys whose text contains the query key, or starts with it. -/
def substrCandidates (idx : List (String × Book)) (key : String) : List Book :=
  (idx.filter (fun kv =>
    containsL kv.1.data key.data || startsWithL kv.1.data key.data)).map
    (fun kv => kv.2)

/-- The fuzzy branch of `get_summary_by_title`: `get_close_matches` over
all raw titles with `n=1, cutoff=0.6`, then an unguarded
`_TITLE_INDEX[_norm(close_title)]` access (a `KeyError` there is a raised
exception, modelled as `Except.error`). -/
def fuzzyAnswer (close : ℚ → String → List String → Option String)
    (books : List Book) (idx : List (String × Book)) (title : String) :
    Except String String :=
  match close ((6 : ℚ)/10) title (books.map (fun b => b.title)) with
  | some closeTitle =>
    match lookupKV idx (_norm closeTitle) with
    | some b =>
      let summary := strip b.summary
      if summary ≠ ("") then Except.ok summary
      else Except.ok (("Am găsit cartea cea mai apropiată „") ++ closeTitle ++
        ("”, dar nu are rezumat."))
    | none => Except.error (("KeyError: ") ++ _norm closeTitle)
  | none => Except.ok (("Nu am găsit nicio carte cu titlul „") ++ title ++ ("”."))

/-- `get_summary_by_title` (tools.py). -/
def get_summary_by_title (close : ℚ → String → List String → Option String)
    (books : List Book) (title : String) : Except String String :=
  let idx := buildIndex books
  if strip title = ("") then
    Except.ok ("Nu am primit niciun titlu. Te rog trimite un titlu de carte valid.")
  else
    let key := _norm title
    match lookupKV idx key with
    | some b => Except.ok (exactAnswer b)
    | none =>
      match substrCandidates idx key with
      | b :: _ => Except.ok (candAnswer b)
      | [] => fuzzyAnswer close books idx title

/-! ## Response Orchestrator (backend/app/main.py)

`json.loads(...)` followed by `str(data.get("title", "")).strip()` (with
every parse exception mapped to `none`) is the opaque standard-library
step `decode : String → Option String`. -/

/-- The candidate titles built by `_select_title`: trimmed titles of the
context items whose raw title is truthy, then filtered to non-empty. -/
def candidateTitles (items : List RetrievalMatch) : List String :=
  ((items.filter (fun x => x.title.getD ("") ≠ (""))).map
    (fun x => strip (x.title.getD ("")))).filter (fun t => t ≠ (""))

/-- The fixed system prompt of `_select_title`. -/
def selectSystem : String :=
  ("Alege EXACT UN titlu din lista dată. Răspunde STRICT ca JSON valid pe o singură linie: ") ++
  ("\x7b\"title\":\"...\"\x7d Fără backticks, fără explicații.")

/-- The user prompt of `_select_title`. -/
def selectUser (message : String) (titles : List String) : String :=
  ("Cerere: ") ++ message ++ ("\nTitluri candidate: ") ++
    String.intercalate ("; ") titles

/-- `_select_title` (main.py): empty candidate list short-circuits to
`""`; otherwise one non-streaming completion call, whose reply is decoded
and validated against the candidate list, falling back to the first
candidate. A failure of the call itself propagates as an exception. -/
def _select_title (caps : Caps) (decode : String → Option String)
    (message : String) (items : List RetrievalMatch) :
    Except String String × List CapCall :=
  let titles := candidateTitles items
  if titles.isEmpty then (Except.ok (""), [])
  else
    match caps.completion selectSystem (selectUser message titles) with
    | Except.error e => (Except.error e, [CapCall.completion])
    | Except.ok reply =>
      let text := strip reply
      match decode text with
      | some chosen =>
        (Except.ok (if chosen ∈ titles then chosen else titles.headD ("")),
         [CapCall.completion])
      | none => (Except.ok (titles.headD ("")), [CapCall.completion])

/-- `_fmt` inside `_stream_final_with_summary`: note that the metadata
stores `authors` as a comma-joined string, so the source's
`", ".join(...)` interleaves `", "` between its characters. -/
def _fmt (x : RetrievalMatch) : String :=
  let t := x.title.getD ("")
  let a := match x.authors with
    | none => ("")
    | some s => String.intercalate (", ") (s.data.map (fun c => String.mk [c]))
  let s := x.summary.getD ("")
  ("Titlu: ") ++ t ++ ("\nAutori: ") ++ a ++ ("\nRezumat scurt: ") ++
    takeStr 350 s ++ ("...")

/-- The fixed system prompt of the streaming step. -/
def streamSystem : String :=
  ("Ești „Bibliotecarul Asistent”. Recomandă concis O SINGURĂ carte și explică pe scurt „De ce”. ") ++
  ("Apoi inserează rezumatul complet furnizat (nu inventa). Rămâi în română, prietenos și clar.")

/-- The user prompt of the streaming step. -/
def streamUser (message : String) (items : List RetrievalMatch)
    (title : String) (summary : String) : String :=
  let ragBlock := if items.isEmpty then ("—")
    else String.intercalate ("\n\n") (items.map _fmt)
  ("Cerere utilizator: ") ++ message ++ ("\n\n") ++
  ("Titlu ales: ") ++ (if title = ("") then ("N/A") else title) ++ ("\n\n") ++
  ("CONTEXT (din RAG, pentru orientare – nu inventa altele):\n") ++ ragBlock ++ ("\n\n") ++
  ("Rezumat complet pentru titlul ales (din sursă locală):\n") ++ summary ++ ("\n\n") ++
  ("Structură răspuns:\n") ++
  ("1) O propoziție cu recomandarea (doar un titlu).\n") ++
  ("2) De ce se potrivește (2–3 fraze).\n") ++
  ("3) Rezumatul complet (exact cum e furnizat mai sus).")

/-- The summary-lookup line of `_stream_final_with_summary` (main.py):
`summary = get_summary_by_title(title) if title else ""`, together with
its work-log entry. -/
def summaryStep (close : ℚ → String → List String → Option String)
    (books : List Book) (title : String) :
    Except String String × List CapCall :=
  if title ≠ ("") then
    (get_summary_by_title close books title, [CapCall.summaryLookup title])
  else (Except.ok (""), [])

/-- `_stream_final_with_summary` (main.py), as the sequence of frames it
yields, the exception it raises after them (if any), and its work log.
The summary lookup runs only for a truthy (non-empty) title; after the
streaming call's deltas are forwarded as `token` frames, either the
stream failure propagates or the `final` frame is emitted, carrying
`recommendation = \x7b"title": title\x7d` and `summary or None`. -/
def _stream_final_with_summary (caps : Caps)
    (close : ℚ → String → List String → Option String) (books : List Book)
    (message : String) (items : List RetrievalMatch) (title : String) :
    List Frame × Option String × List CapCall :=
  let lookup := summaryStep close books title
  match lookup.1 with
  | Except.error e => ([], some e, lookup.2)
  | Except.ok summary =>
    let run := caps.streaming streamSystem (streamUser message items title summary)
    let tokenFrames := run.1.map Frame.token
    match run.2 with
    | some e => (tokenFrames, some e, lookup.2 ++ [CapCall.streaming])
    | none =>
      (tokenFrames ++ [Frame.final (some ⟨title⟩)
        (if summary = ("") then none else some summary)],
       none, lookup.2 ++ [CapCall.streaming])

/-- `event_generator` (main.py): forwards the frames of
`_stream_final_with_summary` and turns a raised exception into one
terminal `error` frame. -/
def event_generator (caps : Caps)
    (close : ℚ → String → List String → Option String) (books : List Book)
    (message : String) (items : List RetrievalMatch) (title : String) :
    List Frame × List CapCall :=
  let run := _stream_final_with_summary caps close books message items title
  match run.2.1 with
  | some e => (run.1 ++ [Frame.error e], run.2.2)
  | none => (run.1, run.2.2)

/-- The fixed redirect message of `_stream_policy_reply`. -/
def policyMsg : String :=
  ("Aș vrea să păstrăm conversația politică și respectuoasă. ") ++
  ("Poți reformula mesajul fără termeni ofensatori?")

/-- The frames of `_stream_policy_reply` (main.py): one `token` frame
with the fixed redirect message, then one `final` frame whose
`FinalResponse(final=True)` payload has null recommendation and summary. -/
def policyFrames : List Frame :=
  [Frame.token policyMsg, Frame.final none none]

/-- The `/respond` route (main.py): validate, moderate, retrieve, select,
then stream; `retrieve` and `_select_title` run before the
`StreamingResponse` is constructed, so their exceptions are raised, not
streamed. -/
def respond (caps : Caps)
    (close : ℚ → String → List String → Option String)
    (decode : String → Option String) (books : List Book)
    (col : Collection) (payload : String) : RespondResult × List CapCall :=
  let message := strip payload
  if message = ("") then
    (RespondResult.httpError 400 ("Field \x27message\x27 is required"), [])
  else
    match is_offensive message with
    | some _ => (RespondResult.stream policyFrames, [])
    | none =>
      let r := retrieve caps col (some message) 3
      match r.1 with
      | Except.error e => (RespondResult.raised e, r.2)
      | Except.ok items =>
        let sel := _select_title caps decode message items
        match sel.1 with
        | Except.error e => (RespondResult.raised e, r.2 ++ sel.2)
        | Except.ok title =>
          let gen := event_generator caps close books message items title
          (RespondResult.stream gen.1, r.2 ++ sel.2 ++ gen.2)

/-! ## Frame classifiers -/

/-- The frame is a `token` delta frame. -/
def isToken : Frame → Bool
  | Frame.token _ => true
  | _ => false

/-- The frame is terminal (`final` or `error`). -/
def isTerminal : Frame → Bool
  | Frame.final _ _ => true
  | Frame.error _ => true
  | _ => false

/-- The route outcome is an SSE stream (as opposed to a raised exception
or a non-stream HTTP error). -/
def isStreamResult : RespondResult → Bool
  | RespondResult.stream _ => true
  | _ => false

/-! ## Concrete fixtures (used by witnesses and counterexamples) -/

/-- A fuzzy matcher that never matches. -/
def close0 : ℚ → String → List String → Option String := fun _ _ _ => none

/-- A JSON decode step that always fails (e.g. the provider answered
plain text such as `nope`). -/
def decode0 : String → Option String := fun _ => none

/-- A deterministic stand-in for Chroma nearest-neighbour search:
returns the stored documents in insertion order. -/
def colQuery0 : Collection → List ℚ → Nat → QueryRes := fun col _ k =>
  { ids := (col.docs.map (fun d => d.id)).take k
    distances := (col.docs.map (fun _ => (0 : ℚ))).take k
    documents := (col.docs.map (fun d => d.document)).take k
    metadatas := (col.docs.map (fun d => some d.meta)).take k }

/-- Well-behaved capabilities. -/
def caps0 : Caps :=
  { embed := fun ts => Except.ok (ts.map (fun _ => [(1 : ℚ)]))
    completion := fun _ _ => Except.ok ("nope")
    streaming := fun _ _ => ([("Salut!")], none)
    colQuery := colQuery0 }

/-- Capabilities whose embedding call fails. -/
def capsBadEmbed : Caps := { caps0 with embed := fun _ => Except.error ("boom") }

def duneBook : Book :=
  { title := "Dune", authors := ["Frank Herbert"], tags := ["sf"],
    summary := "Rezumat Dune" }

def duneMessiah : Book :=
  { title := "Dune Messiah", authors := ["Frank Herbert"], tags := ["sf"],
    summary := "Rezumat Dune Messiah" }

def hobbitBook : Book :=
  { title := "The Hobbit", authors := ["J.R.R. Tolkien"], tags := ["fantasy"],
    summary := "Rezumat Hobbit" }

def books0 : List Book := [duneBook, duneMessiah, hobbitBook]

def duneBooks : List Book := [duneBook, duneMessiah]

def books1 : List Book := [duneBook]

/-- A populated one-document collection. -/
def col0 : Collection :=
  ⟨[{ id := "dune", document := "Title: Dune", embedding := [1],
      meta := { title := "Dune", authors := "Frank Herbert", tags := "sf",
                summary := "Rezumat Dune" } }]⟩

/-- The collection produced by ingesting `books1` into an empty
collection with `caps0`. -/
def col1c : Collection :=
  ⟨[{ id := "dune",
      document := "Title: Dune\nAuthors: Frank Herbert\nTags: sf\nSummary: Rezumat Dune",
      embedding := [1],
      meta := { title := "Dune", authors := "Frank Herbert", tags := "sf",
                summary := "Rezumat Dune" } }]⟩

def duneMatch : RetrievalMatch :=
  { title := some ("Dune"), summary := none, authors := none, tags := none,
    distance := none, document := none, id := "dune" }

def hobbitMatch : RetrievalMatch :=
  { title := some ("The Hobbit"), summary := none, authors := none,
    tags := none, distance := none, document := none, id := "the-hobbit" }

def items5 : List RetrievalMatch := [duneMatch, hobbitMatch]

/-- Capabilities whose streaming call fails mid-stream after one delta. -/
def capsBadStream : Caps :=
  { caps0 with streaming := fun _ _ => ([("par")], some ("net down")) }

/-! ## General lemmas -/

theorem dropWhile_dropWhile (p : Char → Bool) (l : List Char) :
    (l.dropWhile p).dropWhile p = l.dropWhile p := by
  induction l with
  | nil => rfl
  | cons c cs ih =>
    cases hc : p c with
    | true => rw [List.dropWhile_cons_of_pos hc]; exact ih
    | false =>
      rw [List.dropWhile_cons_of_neg (by simp [hc])]
      rw [List.dropWhile_cons_of_neg (by simp [hc])]

theorem dropWhile_head_false (p : Char → Bool) (l : List Char) (c : Char)
    (cs : List Char) (h : l.dropWhile p = c :: cs) : p c = false := by
  induction l with
  | nil => simp [List.dropWhile] at h
  | cons a as ih =>
    cases ha : p a with
    | true => rw [List.dropWhile_cons_of_pos ha] at h; exact ih h
    | false =>
      rw [List.dropWhile_cons_of_neg (by simp [ha])] at h
      injection h with h1 _
      rw [← h1]; exact ha

theorem stripWhile_idem (p : Char → Bool) (l : List Char) :
    stripWhile p (stripWhile p l) = stripWhile p l := by
  unfold stripWhile
  cases hR : ((l.dropWhile p).reverse.dropWhile p).reverse with
  | nil => simp [hR]
  | cons c cs =>
    have hsplit : (l.dropWhile p).reverse.takeWhile p ++
        (l.dropWhile p).reverse.dropWhile p = (l.dropWhile p).reverse :=
      List.takeWhile_append_dropWhile p ((l.dropWhile p).reverse)
    have h2 := congrArg List.reverse hsplit
    rw [List.reverse_append, List.reverse_reverse, hR] at h2
    have hc : p c = false := by
      refine dropWhile_head_false p l c
        (cs ++ ((l.dropWhile p).reverse.takeWhile p).reverse) ?_
      rw [← List.cons_append]
      exact h2.symm
    have hB : (l.dropWhile p).reverse.dropWhile p = (c :: cs).reverse := by
      rw [← hR, List.reverse_reverse]
    rw [List.dropWhile_cons_of_neg (by simp [hc])]
    rw [show (c :: cs).reverse = (l.dropWhile p).reverse.dropWhile p from hB.symm]
    rw [dropWhile_dropWhile, hB, List.reverse_reverse]

theorem strip_strip (s : String) : strip (strip s) = strip s := by
  unfold strip
  rw [show (String.mk (stripWhile Char.isWhitespace s.data)).data =
    stripWhile Char.isWhitespace s.data from rfl, stripWhile_idem]

theorem mem_stripWhile (p : Char → Bool) (l : List Char) (c : Char)
    (h : c ∈ stripWhile p l) : c ∈ l := by
  unfold stripWhile at h
  rw [List.mem_reverse] at h
  have h2 : c ∈ (l.dropWhile p).reverse :=
    ((l.dropWhile p).reverse.dropWhile_sublist p).subset h
  rw [List.mem_reverse] at h2
  exact (l.dropWhile_sublist p).subset h2

theorem mem_replaceDashes : ∀ (l : List Char) (c : Char),
    c ∈ replaceDashes l → c ∈ l
  | [], _, h => by simp [replaceDashes] at h
  | [a], c, h => by simpa [replaceDashes] using h
  | a :: b :: t, c, h => by
    rw [replaceDashes] at h
    by_cases hd : a = '-' ∧ b = '-'
    · rw [if_pos hd] at h
      rcases List.mem_cons.mp h with h1 | h2
      · rw [h1, hd.1]; exact List.mem_cons_self _ _
      · exact List.mem_cons_of_mem _ (List.mem_cons_of_mem _
          (mem_replaceDashes t c h2))
    · rw [if_neg hd] at h
      rcases List.mem_cons.mp h with h1 | h2
      · rw [h1]; exact List.mem_cons_self _ _
      · exact List.mem_cons_of_mem _ (mem_replaceDashes (b :: t) c h2)

theorem charToNat_ofNat (n : Nat) (h : n.isValidChar) :
    (Char.ofNat n).toNat = n := by
  simp [Char.ofNat, h, Char.toNat, Char.ofNatAux, UInt32.toNat,
    UInt32.ofNatCore, BitVec.toNat_ofNatLt]

/-- The per-character step of `_slugify` produces only lower-case ASCII
letters, digits, or dashes. -/
theorem slugStep_char (a : Char) :
    (97 ≤ (if pyIsAlnum (pyLowerChar a) then pyLowerChar a else '-').toNat ∧
      (if pyIsAlnum (pyLowerChar a) then pyLowerChar a else '-').toNat ≤ 122) ∨
    (48 ≤ (if pyIsAlnum (pyLowerChar a) then pyLowerChar a else '-').toNat ∧
      (if pyIsAlnum (pyLowerChar a) then pyLowerChar a else '-').toNat ≤ 57) ∨
    (if pyIsAlnum (pyLowerChar a) then pyLowerChar a else '-') = '-' := by
  by_cases halnum : pyIsAlnum (pyLowerChar a) = true
  · rw [if_pos halnum]
    unfold pyLowerChar at halnum ⊢
    by_cases hup : 65 ≤ a.toNat ∧ a.toNat ≤ 90
    · rw [if_pos hup]
      have hval : (a.toNat + 32).isValidChar := by
        unfold Nat.isValidChar
        left; omega
      rw [charToNat_ofNat (a.toNat + 32) hval]
      left; omega
    · rw [if_neg hup] at halnum ⊢
      unfold pyIsAlnum at halnum
      simp only [Bool.or_eq_true, Bool.and_eq_true, decide_eq_true_eq] at halnum
      rcases halnum with (h1 | h2) | h3
      · right; left; exact h1
      · exact absurd h2 hup
      · left; exact h3
  · rw [if_neg halnum]
    right; right; rfl

/-- A successful ingestion loop grows the collection by exactly the
number of rows it was given. -/
theorem batchLoop_ok_len (caps : Caps) : ∀ (k : Nat) (rows : List Row),
    rows.length ≤ k → ∀ col added n col2 calls,
    batchLoop caps rows col added = (Except.ok n, col2, calls) →
    col2.docs.length = col.docs.length + rows.length := by
  intro k
  induction k with
  | zero =>
    intro rows hlen col added n col2 calls h
    have hnil : rows = [] := List.eq_nil_of_length_eq_zero (Nat.le_zero.mp hlen)
    rw [hnil] at h ⊢
    rw [batchLoop] at h
    simp only [Prod.mk.injEq] at h
    rw [← h.2.1]
    simp
  | succ k ih =>
    intro rows hlen col added n col2 calls h
    cases rows with
    | nil =>
      rw [batchLoop] at h
      simp only [Prod.mk.injEq] at h
      rw [← h.2.1]
      simp
    | cons r rs =>
      rw [batchLoop] at h
      split at h
      · exact absurd (congrArg (fun x => x.1) h) (by simp)
      · rename_i vectors hvec
        split at h
        · exact absurd (congrArg (fun x => x.1) h) (by simp)
        · rename_i col1 hadd
          simp only [Prod.mk.injEq] at h
          simp only [List.length_cons] at hlen
          have hrecur := ih (rs.drop 63)
            (by simp only [List.length_drop]; omega)
            col1 (added + (r :: rs.take 63).length) n col2
            ((batchLoop caps (rs.drop 63) col1
              (added + (r :: rs.take 63).length)).2.2)
            (by rw [← h.1, ← h.2.1])
          have hcol1 : col1.docs.length =
              col.docs.length + (r :: rs.take 63).length := by
            unfold colAdd at hadd
            by_cases hlen2 : (r :: rs.take 63).length = vectors.length
            · rw [if_pos hlen2] at hadd
              simp only [Except.ok.injEq] at hadd
              rw [← hadd]
              simp only [List.length_append, List.length_map, List.length_zip,
                List.length_cons, List.length_take]
              simp only [List.length_cons, List.length_take] at hlen2
              omega
            · rw [if_neg hlen2] at hadd
              exact absurd hadd (by simp)
          rw [hrecur, hcol1]
          simp only [List.length_take, List.length_drop, List.length_cons]
          omega

/-- `index_books` on an already-populated index with `force = false`:
returns `(0, existingCount)`, changes nothing, performs no calls. -/
theorem index_books_populated (caps : Caps) (books : List Book)
    (col : Collection) (h : col.docs.length ≠ 0) :
    index_books caps books col false =
      (Except.ok (0, col.docs.length), col, []) := by
  unfold index_books
  rw [if_pos ⟨h, rfl⟩]

theorem strip_empty : strip ("") = ("") := rfl

/-- The double filtering in `_select_title` collapses to a single
map-then-filter pass: truthiness pre-filtering only removes entries
whose trimmed title would be dropped anyway. -/
theorem candidate_filter_collapse (xs : List RetrievalMatch) :
    ((xs.filter (fun x => x.title.getD ("") ≠ (""))).map
      (fun x => strip (x.title.getD ("")))).filter (fun t => t ≠ ("")) =
    (xs.map (fun x => strip (x.title.getD ("")))).filter
      (fun t => t ≠ ("")) := by
  induction xs with
  | nil => rfl
  | cons x xs ih =>
    by_cases hx : x.title.getD ("") = ("")
    · rw [List.filter_cons_of_neg (by simp [hx]), List.map_cons]
      rw [show strip (x.title.getD ("")) = ("") by rw [hx]; exact strip_empty]
      rw [List.filter_cons_of_neg (by simp)]
      exact ih
    · rw [List.filter_cons_of_pos (by simp [hx]), List.map_cons, List.map_cons]
      rw [List.filter_cons, List.filter_cons, ih]

/-- Token frames are never terminal. -/
theorem tokens_filter_terminal (ds : List String) :
    (ds.map Frame.token).filter isTerminal = [] := by
  induction ds with
  | nil => rfl
  | cons d ds ih => simp [isTerminal, ih]

/-- The generator always emits a list of token frames followed by one
terminal frame. -/
theorem event_generator_shape (caps : Caps)
    (close : ℚ → String → List String → Option String) (books : List Book)
    (message : String) (items : List RetrievalMatch) (title : String) :
    ∃ (ds : List String) (t : Frame),
      (event_generator caps close books message items title).1 =
        ds.map Frame.token ++ [t] ∧ isTerminal t = true := by
  unfold event_generator _stream_final_with_summary
  cases hs : (summaryStep close books title).1 with
  | error e =>
    refine ⟨[], Frame.error e, ?_, rfl⟩
    simp [hs]
  | ok summary =>
    cases hr : (caps.streaming streamSystem
        (streamUser message items title summary)).2 with
    | some e =>
      refine ⟨(caps.streaming streamSystem
        (streamUser message items title summary)).1, Frame.error e, ?_, rfl⟩
      simp [hs, hr]
    | none =>
      refine ⟨(caps.streaming streamSystem
        (streamUser message items title summary)).1, Frame.final (some ⟨title⟩)
        (if summary = ("") then none else some summary), ?_, rfl⟩
      simp [hs, hr]

/-! ## Claims -/

/-- C1: for every request whose trimmed message matches a listed
disallowed term (the Moderation Gate reports a match), the Retriever and
the Title Selector are never invoked — the call log is empty, so no
retrieval or generation work occurs — and the stream is exactly one
`Token` frame with the fixed redirect message followed by one `Final`
frame with null recommendation and null summary. -/
theorem claim1_moderation_short_circuit (caps : Caps)
    (close : ℚ → String → List String → Option String)
    (decode : String → Option String) (books : List Book) (col : Collection)
    (payload term : String)
    (hbad : is_offensive (strip payload) = some term) :
    respond caps close decode books col payload =
      (RespondResult.stream [Frame.token policyMsg, Frame.final none none],
       []) := by
  have hne : strip payload ≠ ("") := by
    intro h
    rw [h] at hbad
    simp [is_offensive] at hbad
  simp only [respond]
  rw [if_neg hne, hbad]
  rfl

/-- C1 witness: a concrete offensive message takes the policy path. -/
theorem claim1_witness :
    is_offensive (strip ("esti un idiot")) = some ("idiot") ∧
    respond caps0 close0 decode0 books0 col0 ("esti un idiot") =
      (RespondResult.stream [Frame.token policyMsg, Frame.final none none],
       []) :=
  ⟨by decide,
   claim1_moderation_short_circuit caps0 close0 decode0 books0 col0
     ("esti un idiot") ("idiot") (by decide)⟩

/-- C5: for every message and non-empty candidate list, if the
completion reply fails to decode, or decodes to a title outside the
candidate list, `_select_title` returns the first candidate (in
first-seen order) without raising. -/
theorem claim5_selection_fallback (caps : Caps)
    (decode : String → Option String) (message : String)
    (items : List RetrievalMatch) (reply : String)
    (h1 : candidateTitles items ≠ [])
    (h2 : caps.completion selectSystem
      (selectUser message (candidateTitles items)) = Except.ok reply)
    (h3 : decode (strip reply) = none ∨
      ∃ chosen, decode (strip reply) = some chosen ∧
        chosen ∉ candidateTitles items) :
    _select_title caps decode message items =
      (Except.ok ((candidateTitles items).headD ("")), [CapCall.completion]) := by
  rcases h3 with h3 | ⟨chosen, h3, hnotin⟩
  · simp [_select_title, h1, h2, h3]
  · simp [_select_title, h1, h2, h3, hnotin]

/-- C5 witness: candidates `["Dune", "The Hobbit"]`, provider output
`nope` (not JSON) falls back to `"Dune"`. -/
theorem claim5_witness :
    _select_title caps0 decode0 ("vreau ceva") items5 =
      (Except.ok (("Dune")), [CapCall.completion]) := by
  have h := claim5_selection_fallback caps0 decode0 ("vreau ceva") items5
    ("nope") (by decide) (by rfl) (Or.inl (by rfl))
  simpa using h

/-- C8: for every query that is `None` or whitespace-only after
trimming, `retrieve` returns the empty list without raising and without
any embedding call. -/
theorem claim8_empty_query (caps : Caps) (col : Collection)
    (query : Option String) (k : Nat)
    (h : strip (query.getD ("")) = ("")) :
    retrieve caps col query k = (Except.ok [], []) := by
  simp only [retrieve]
  rw [if_pos h]

/-- C8 witness: whitespace-only and `None` queries. -/
theorem claim8_witness :
    retrieve caps0 col0 (some ("   ")) 3 = (Except.ok [], []) ∧
    retrieve caps0 col0 none 3 = (Except.ok [], []) :=
  ⟨claim8_empty_query caps0 col0 (some ("   ")) 3 (by decide),
   claim8_empty_query caps0 col0 none 3 (by decide)⟩

/-- C10: when the selected title is empty, the summary lookup is not
invoked (`summaryStep` performs and logs nothing) and the `Final` frame
carries the non-null recommendation `\x7b"title": ""\x7d` with a null
summary; in general the `Final` frame's summary field is null exactly
when the resolved summary text is empty. -/
theorem claim10_empty_title_final (caps : Caps)
    (close : ℚ → String → List String → Option String) (books : List Book)
    (message : String) (items : List RetrievalMatch) :
    (∀ ds, caps.streaming streamSystem (streamUser message items ("") ("")) =
        (ds, none) →
      summaryStep close books ("") = (Except.ok (""), []) ∧
      _stream_final_with_summary caps close books message items ("") =
        (ds.map Frame.token ++ [Frame.final (some ⟨("")⟩) none], none,
         [CapCall.streaming])) ∧
    (∀ title s slog ds,
      summaryStep close books title = (Except.ok s, slog) →
      caps.streaming streamSystem (streamUser message items title s) =
        (ds, none) →
      _stream_final_with_summary caps close books message items title =
        (ds.map Frame.token ++ [Frame.final (some ⟨title⟩)
          (if s = ("") then none else some s)], none,
         slog ++ [CapCall.streaming])) := by
  constructor
  · intro ds h
    refine ⟨rfl, ?_⟩
    simp [_stream_final_with_summary, summaryStep, h]
  · intro title s slog ds hstep hstr
    simp [_stream_final_with_summary, hstep, hstr]

/-- C10 witness: empty selected title with a well-behaved stream. -/
theorem claim10_witness :
    _stream_final_with_summary caps0 close0 books0 ("msg") [] ("") =
      ([Frame.token ("Salut!"), Frame.final (some ⟨("")⟩) none], none,
       [CapCall.streaming]) := by
  have h := (claim10_empty_title_final caps0 close0 books0 ("msg") []).1
    [("Salut!")] (by rfl)
  simpa using h.2

/-- C6: `get_summary_by_title` resolves with strict precedence — an
exact normalized-title match first (independently of the fuzzy
capability), then the substring/startswith scan taking the first
candidate in catalog order (still independently of the fuzzy
capability), and only if both are absent the fuzzy stage with cutoff
0.6; in particular with a catalog holding both `Dune` and
`Dune Messiah`, the query `dune` resolves to `Dune`. -/
theorem claim6_summary_precedence
    (close : ℚ → String → List String → Option String)
    (books : List Book) (t : String) :
    (∀ b, strip t ≠ ("") →
      lookupKV (buildIndex books) (_norm t) = some b →
      get_summary_by_title close books t = Except.ok (exactAnswer b)) ∧
    (∀ b bs, strip t ≠ ("") →
      lookupKV (buildIndex books) (_norm t) = none →
      substrCandidates (buildIndex books) (_norm t) = b :: bs →
      get_summary_by_title close books t = Except.ok (candAnswer b)) ∧
    (strip t ≠ ("") →
      lookupKV (buildIndex books) (_norm t) = none →
      substrCandidates (buildIndex books) (_norm t) = [] →
      get_summary_by_title close books t =
        fuzzyAnswer close books (buildIndex books) t) ∧
    get_summary_by_title close duneBooks ("dune") =
      Except.ok (("Rezumat Dune")) := by
  refine ⟨?_, ?_, ?_, ?_⟩
  · intro b hne hexact
    simp [get_summary_by_title, hne, hexact]
  · intro b bs hne hnone hcand
    simp [get_summary_by_title, hne, hnone, hcand]
  · intro hne hnone hcand
    simp [get_summary_by_title, hne, hnone, hcand]
  · rfl

/-- C6 witness: exact match beats substring match on a concrete catalog
and query (modulo trimming and case folding). -/
theorem claim6_witness :
    get_summary_by_title close0 duneBooks ("DUNE ") =
      Except.ok (exactAnswer duneBook) :=
  (claim6_summary_precedence close0 duneBooks ("DUNE ")).1 duneBook
    (by decide) (by decide)

/-- C7 counterexample: the candidate list built by `_select_title` is
not deduplicated — two retrieved matches with the same title yield that
title twice, so the list is not the set of distinct titles the claim
describes. -/
theorem claim7_counterexample :
    candidateTitles [duneMatch, duneMatch] = [("Dune"), ("Dune")] ∧
    ¬ (candidateTitles [duneMatch, duneMatch]).Nodup := by
  constructor
  · decide
  · decide

/-- C7 (amended): `_select_title` builds its candidate list as the
trimmed titles of the retrieved matches in first-seen order, keeping
only non-empty ones but preserving duplicates, and returns the empty
string (with no completion call) when that list is empty. -/
theorem claim7_amended (items : List RetrievalMatch) (caps : Caps)
    (decode : String → Option String) (message : String) :
    candidateTitles items =
      (items.map (fun x => strip (x.title.getD ("")))).filter
        (fun t => t ≠ ("")) ∧
    (("") ∉ candidateTitles items) ∧
    (candidateTitles items = [] →
      _select_title caps decode message items = (Except.ok (""), [])) := by
  refine ⟨?_, ?_, ?_⟩
  · exact candidate_filter_collapse items
  · intro h
    rcases List.mem_filter.mp h with ⟨-, hne⟩
    simp at hne
  · intro h
    simp [_select_title, h]

/-- C7 witness: the empty candidate list short-circuits to `""`. -/
theorem claim7_witness :
    _select_title caps0 decode0 ("") [] = (Except.ok (""), []) :=
  (claim7_amended [] caps0 decode0 ("")).2.2 (by rfl)

/-- C3: every stream the route returns consists of zero or more `Token`
frames followed by exactly one terminal frame (`Final` or `Error`),
which is the last frame. -/
theorem claim3_terminal_frame (caps : Caps)
    (close : ℚ → String → List String → Option String)
    (decode : String → Option String) (books : List Book) (col : Collection)
    (payload : String) (frames : List Frame)
    (h : (respond caps close decode books col payload).1 =
      RespondResult.stream frames) :
    ∃ (ts : List Frame) (t : Frame), frames = ts ++ [t] ∧
      isTerminal t = true ∧ (∀ f ∈ ts, isToken f = true) ∧
      (frames.filter isTerminal).length = 1 := by
  simp only [respond] at h
  split at h
  · exact absurd h (by simp)
  · split at h
    · have hfr : frames = policyFrames := by simpa using h.symm
      refine ⟨[Frame.token policyMsg], Frame.final none none, ?_, rfl, ?_, ?_⟩
      · rw [hfr]; rfl
      · intro f hf
        simp only [List.mem_singleton] at hf
        rw [hf]; rfl
      · rw [hfr]; rfl
    · split at h
      · exact absurd h (by simp)
      · rename_i items hitems
        split at h
        · exact absurd h (by simp)
        · rename_i title htitle
          obtain ⟨ds, t, hshape, hterm⟩ :=
            event_generator_shape caps close books (strip payload) items title
          have hfr : frames = ds.map Frame.token ++ [t] := by
            rw [← hshape]
            simpa using h.symm
          refine ⟨ds.map Frame.token, t, hfr, hterm, ?_, ?_⟩
          · intro f hf
            rcases List.mem_map.mp hf with ⟨d, -, rfl⟩
            rfl
          · rw [hfr, List.filter_append, tokens_filter_terminal]
            simp [hterm]

/-- C3 witness: a concrete full pipeline run produces one token and one
terminal `Final` frame. -/
theorem claim3_witness :
    ∃ (ts : List Frame) (t : Frame),
      [Frame.token ("Salut!"),
       Frame.final (some ⟨("Dune")⟩) (some ("Rezumat Dune"))] = ts ++ [t] ∧
      isTerminal t = true ∧ (∀ f ∈ ts, isToken f = true) ∧
      (([Frame.token ("Salut!"),
         Frame.final (some ⟨("Dune")⟩) (some ("Rezumat Dune"))]).filter
        isTerminal).length = 1 :=
  claim3_terminal_frame caps0 close0 decode0 books0 col0
    ("vreau o carte fantasy") _ (by rfl)

/-- C2 counterexample: an embedding failure on a moderated-through
request is raised out of the route before any stream exists — the
outcome is `raised`, not a stream carrying an `Error` frame — refuting
the claim that every remote-capability failure is emitted as a terminal
`Error` frame and never thrown past the stream boundary. -/
theorem claim2_counterexample :
    respond capsBadEmbed close0 decode0 books0 col0 ("fantasy") =
      (RespondResult.raised ("boom"), [CapCall.embed [("fantasy")]]) ∧
    isStreamResult
      (respond capsBadEmbed close0 decode0 books0 col0 ("fantasy")).1 =
      false := by
  constructor
  · rfl
  · rfl

/-- C2 (amended): embedding failures and title-selection completion
failures happen before the `StreamingResponse` is constructed and are
raised as non-stream errors; only a failure of the streaming completion
call is emitted inside the stream, as the token frames forwarded so far
followed by exactly one terminal `Error` frame with the failure
message. -/
theorem claim2_amended (caps : Caps)
    (close : ℚ → String → List String → Option String)
    (decode : String → Option String) (books : List Book) (col : Collection)
    (payload : String) :
    (∀ e, is_offensive (strip payload) = none → strip payload ≠ ("") →
      caps.embed [strip payload] = Except.error e →
      respond caps close decode books col payload =
        (RespondResult.raised e, [CapCall.embed [strip payload]])) ∧
    (∀ e items calls1, is_offensive (strip payload) = none →
      strip payload ≠ ("") →
      retrieve caps col (some (strip payload)) 3 = (Except.ok items, calls1) →
      candidateTitles items ≠ [] →
      caps.completion selectSystem
        (selectUser (strip payload) (candidateTitles items)) =
        Except.error e →
      respond caps close decode books col payload =
        (RespondResult.raised e, calls1 ++ [CapCall.completion])) ∧
    (∀ e items calls1 title calls2 s slog ds,
      is_offensive (strip payload) = none → strip payload ≠ ("") →
      retrieve caps col (some (strip payload)) 3 = (Except.ok items, calls1) →
      _select_title caps decode (strip payload) items =
        (Except.ok title, calls2) →
      summaryStep close books title = (Except.ok s, slog) →
      caps.streaming streamSystem (streamUser (strip payload) items title s) =
        (ds, some e) →
      respond caps close decode books col payload =
        (RespondResult.stream (ds.map Frame.token ++ [Frame.error e]),
         calls1 ++ calls2 ++ (slog ++ [CapCall.streaming]))) := by
  refine ⟨?_, ?_, ?_⟩
  · intro e hmod hne hemb
    have hretr : retrieve caps col (some (strip payload)) 3 =
        (Except.error e, [CapCall.embed [strip payload]]) := by
      simp only [retrieve, Option.getD_some, strip_strip]
      rw [if_neg hne]
      simp [embed_texts, hemb]
    simp only [respond]
    rw [if_neg hne, hmod, hretr]
  · intro e items calls1 hmod hne hretr htitles hcomp
    have hsel : _select_title caps decode (strip payload) items =
        (Except.error e, [CapCall.completion]) := by
      simp only [_select_title]
      rw [if_neg (by simp [htitles]), hcomp]
    simp only [respond]
    rw [if_neg hne, hmod, hretr]
    simp only []
    rw [hsel]
  · intro e items calls1 title calls2 s slog ds hmod hne hretr hsel hstep hstr
    have hgen : event_generator caps close books (strip payload) items title =
        (ds.map Frame.token ++ [Frame.error e],
         slog ++ [CapCall.streaming]) := by
      simp [event_generator, _stream_final_with_summary, hstep, hstr]
    simp only [respond]
    rw [if_neg hne, hmod, hretr]
    simp only []
    rw [hsel]
    simp only []
    rw [hgen]

/-- C2 witness: a mid-stream failure of the streaming call on an
otherwise healthy pipeline yields the forwarded token and one terminal
`Error` frame. -/
theorem claim2_witness :
    respond capsBadStream close0 decode0 books0 col0
      ("vreau o carte fantasy") =
      (RespondResult.stream [Frame.token ("par"), Frame.error ("net down")],
       [CapCall.embed [("vreau o carte fantasy")], CapCall.completion,
        CapCall.summaryLookup ("Dune"), CapCall.streaming]) := by
  have h := (claim2_amended capsBadStream close0 decode0 books0 col0
      ("vreau o carte fantasy")).2.2 ("net down")
    [{ title := some ("Dune"), summary := some ("Rezumat Dune"),
       authors := some ("Frank Herbert"), tags := some ("sf"),
       distance := some 0, document := some ("Title: Dune"),
       id := ("dune") }]
    [CapCall.embed [("vreau o carte fantasy")]] ("Dune")
    [CapCall.completion] ("Rezumat Dune") [CapCall.summaryLookup ("Dune")]
    [("par")] (by rfl) (by decide) (by rfl) (by rfl) (by rfl) (by rfl)
  simpa using h

/-- C4: `index_books` with `force=false` on an already-populated index
returns `(0, existingCount)` with no embedding calls and no change to
the collection; consequently a second consecutive `force=false` call
performs no embedding work, changes nothing, and returns
`(0, N)` for the collection size `N` left by the first call. -/
theorem claim4_idempotent_ingestion (caps : Caps) (books : List Book)
    (col : Collection) :
    (col.docs.length ≠ 0 →
      index_books caps books col false =
        (Except.ok (0, col.docs.length), col, [])) ∧
    (∀ r col1 calls1,
      index_books caps books col false = (Except.ok r, col1, calls1) →
      index_books caps books col1 false =
        (Except.ok (0, col1.docs.length), col1, [])) := by
  constructor
  · exact index_books_populated caps books col
  · intro r col1 calls1 h
    by_cases h1 : col1.docs.length = 0
    · by_cases h0 : col.docs.length = 0
      · simp only [index_books] at h
        rw [if_neg (by simp [h0])] at h
        rw [if_neg (by simp)] at h
        cases hb : (batchLoop caps (indexRows books) col 0).1 with
        | error e =>
          rw [hb] at h
          exact absurd h (by simp)
        | ok added =>
          rw [hb] at h
          simp only [Prod.mk.injEq] at h
          have hlen := batchLoop_ok_len caps (indexRows books).length
            (indexRows books) (le_refl _) col 0 added
            ((batchLoop caps (indexRows books) col 0).2.1)
            ((batchLoop caps (indexRows books) col 0).2.2) (by rw [← hb])
          rw [h.2.1] at hlen
          have hrows : indexRows books = [] := by
            apply List.eq_nil_of_length_eq_zero
            omega
          simp only [index_books]
          rw [if_neg (by simp [h1])]
          rw [if_neg (by simp)]
          rw [hrows, batchLoop]
          simp [h1]
      · rw [index_books_populated caps books col h0] at h
        simp only [Prod.mk.injEq] at h
        refine absurd h1 ?_
        rw [← h.2.1]
        exact h0
    · exact index_books_populated caps books col1 h1

/-- C4 witness: a populated collection short-circuits, and after a first
ingestion into an empty collection the second call is a no-op. -/
theorem claim4_witness :
    index_books caps0 books1 col0 false =
      (Except.ok (0, 1), col0, []) ∧
    index_books caps0 books1 col1c false =
      (Except.ok (0, col1c.docs.length), col1c, []) := by
  constructor
  · have h := (claim4_idempotent_ingestion caps0 books1 col0).1 (by decide)
    simpa using h
  · exact (claim4_idempotent_ingestion caps0 books1 ⟨[]⟩).2 (1, 0) col1c
      [CapCall.embed
        [("Title: Dune\nAuthors: Frank Herbert\nTags: sf\nSummary: Rezumat Dune")]]
      (by
        simp only [index_books]
        rw [if_neg (by simp)]
        rw [if_neg (by simp)]
        rw [show indexRows books1 = [rowOf duneBook] from rfl]
        rw [batchLoop]
        simp [embed_texts, caps0, colAdd, batchLoop]
        exact ⟨rfl, rfl⟩)

/-- C9: ingestion drops exactly the catalog entries whose trimmed title
is empty; each indexed document id is the slug of its trimmed title
(hence deterministic in the title); and every slug character is a
lower-case ASCII letter, a digit, or a dash (URL-safe lowercase). -/
theorem claim9_slug_invariants (books : List Book) (t : String) :
    indexRows books =
      indexRows (books.filter (fun b => strip b.title ≠ (""))) ∧
    (indexRows books).map (fun r => r.id) =
      (books.filter (fun b => strip b.title ≠ (""))).map
        (fun b => _slugify (strip b.title)) ∧
    (∀ c ∈ (_slugify t).data,
      (97 ≤ c.toNat ∧ c.toNat ≤ 122) ∨ (48 ≤ c.toNat ∧ c.toNat ≤ 57) ∨
        c = '-') := by
  refine ⟨?_, ?_, ?_⟩
  · induction books with
    | nil => rfl
    | cons b bs ih =>
      by_cases ht : strip b.title = ("")
      · rw [show indexRows (b :: bs) = indexRows bs by
            simp [indexRows, List.filterMap_cons, ht]]
        rw [show (b :: bs).filter (fun b => strip b.title ≠ (""))
            = bs.filter (fun b => strip b.title ≠ ("")) by
            simp [List.filter_cons, ht]]
        exact ih
      · rw [show indexRows (b :: bs) = rowOf b :: indexRows bs by
            simp [indexRows, List.filterMap_cons, ht]]
        rw [show (b :: bs).filter (fun b => strip b.title ≠ (""))
            = b :: bs.filter (fun b => strip b.title ≠ ("")) by
            simp [List.filter_cons, ht]]
        rw [show indexRows (b :: bs.filter (fun b => strip b.title ≠ ("")))
            = rowOf b :: indexRows (bs.filter (fun b => strip b.title ≠ (""))) by
            simp [indexRows, List.filterMap_cons, ht]]
        rw [ih]
  · induction books with
    | nil => rfl
    | cons b bs ih =>
      by_cases ht : strip b.title = ("")
      · rw [show indexRows (b :: bs) = indexRows bs by
            simp [indexRows, List.filterMap_cons, ht]]
        rw [show (b :: bs).filter (fun b => strip b.title ≠ (""))
            = bs.filter (fun b => strip b.title ≠ ("")) by
            simp [List.filter_cons, ht]]
        exact ih
      · rw [show indexRows (b :: bs) = rowOf b :: indexRows bs by
            simp [indexRows, List.filterMap_cons, ht]]
        rw [show (b :: bs).filter (fun b => strip b.title ≠ (""))
            = b :: bs.filter (fun b => strip b.title ≠ ("")) by
            simp [List.filter_cons, ht]]
        rw [List.map_cons, List.map_cons, ih]
        rfl
  · intro c hc
    have hc1 : c ∈ replaceDashes (stripWhile (fun c => c = '-')
        ((t.data.map pyLowerChar).map
          (fun d => if pyIsAlnum d then d else '-'))) := hc
    have hc2 := mem_stripWhile (fun c => c = '-') _ c
      (mem_replaceDashes _ c hc1)
    rcases List.mem_map.mp hc2 with ⟨d, hd, rfl⟩
    rcases List.mem_map.mp hd with ⟨a, -, rfl⟩
    exact slugStep_char a

/-- C9 witness: a character of a concrete slug satisfies the invariant. -/
theorem claim9_witness :
    (97 ≤ ('t').toNat ∧ ('t').toNat ≤ 122) ∨
    (48 ≤ ('t').toNat ∧ ('t').toNat ≤ 57) ∨ ('t') = '-' :=
  (claim9_slug_invariants books0 ("The Hobbit")).2.2 ('t') (by decide)
